import Mathlib

/-!
Verification development for the multi-backend database connection layer of
`src/main/main.js` (the `db-manager` application).

The IPC handlers `connect-database`, `list-databases`, `use-database`,
`list-tables`, `get-table-schema`, `execute-query`, `get-database-schema` and
`close-connection` are embedded as pure Lean functions over:

* an explicit connection registry (the JavaScript object `dbConnections`,
  modeled as an ordered association list with JavaScript assignment/delete
  semantics);
* a family of native-driver oracles (`NativeOps`): each field stands for one
  concrete driver call the handler performs (`mysql2`'s `connection.query`,
  `pg`'s `pool.query`/`pool.end`/`new Pool`, `sqlite3`'s
  `db.all`/`db.close`).  A call that rejects/throws is an `Except.error`
  carrying the driver message; the `try/catch` wrapper of every handler turns
  such an error into the returned `{ success: false, error }` value, so every
  embedded handler is a total function into `JsResult`.

Catalog-dependent driver calls are typed by the shape of the rows the backend
returns (`DESCRIBE`, `information_schema.columns`, `information_schema.tables`,
`sqlite_master`, `PRAGMA table_info`); `WHERE` clauses and `SELECT`
projections that appear literally in the SQL strings issued by the handlers
are applied inside the embedding, so that the filtering logic the claims talk
about is visible in Lean.

In the JavaScript source, every handler begins with
`const { connection, dbType } = dbConnections[connectionId]`.  When the id has
no entry, the lookup yields `undefined` and the destructuring itself throws a
`TypeError`, which the surrounding `catch` converts into a failure result;
this is the `none` branch of `regFind` below, returning
`destructureMsg`.  The subsequent `if (!connection)` guards in the source are
unreachable: every registry entry ever stored carries a non-null connection
object (`connect-database` stores the freshly created driver object and the
`use-database` replacement path stores the freshly constructed pool), so the
guard's branch is dead code and is omitted from the embedding.
-/

namespace DbManager

/-- JavaScript primitive value as it appears in driver result rows and in the
column-descriptor objects the handlers build. -/
inductive JValue where
  | str (s : String)
  | bool (b : Bool)
  | num (n : Int)
  | null
deriving DecidableEq

/-- A driver result row: a JavaScript object modeled as ordered key/value
pairs. -/
abbrev Row := List (String × JValue)

/-- A column-descriptor object as built by `get-table-schema`: ordered
key/value pairs, mirroring the object literal in the source. -/
abbrev Desc := List (String × JValue)

/-- Lookup of a property on a descriptor object (first matching key). -/
def lookupField : Desc → String → Option JValue
  | [], _ => none
  | (k, v) :: rest, key => if k = key then some v else lookupField rest key

/-- The three backend kinds stored in `dbConnections[id].dbType`. -/
inductive DbType where
  | mysql
  | postgresql
  | sqlite
deriving DecidableEq

/-- The argument object of `connect-database` (credential bookkeeping through
`store` is an external collaborator and not modeled).  `dbType` is a raw
string because the handler's `switch` has a `default` branch for unsupported
values. -/
structure ConnectInfo where
  dbType : String
  host : String
  port : String
  username : String
  password : String
deriving DecidableEq

/-- A row of MySQL's `DESCRIBE` result as the `mysql2` driver reports it
(fields `Field`, `Type`, `Null`, `Key`, `Default`, `Extra`).  The `Type`
column is renamed `colType` because `Type` is reserved in Lean. -/
structure MySqlDescribeRow where
  Field : String
  colType : String
  Null : String
  Key : String
  Default : Option String
  Extra : String
deriving DecidableEq

/-- A per-column view of the PostgreSQL catalog for one table: the
`information_schema.columns` attributes the handlers read, together with
`isPrimaryKey` — whether a PRIMARY KEY constraint covers the column, which a
real server stores in `information_schema.table_constraints` joined with
`key_column_usage`.  The `SELECT` issued by `get-table-schema` reads only
`column_name, data_type, is_nullable, column_default`; `get-database-schema`
additionally reads `character_maximum_length` and fetches the constraint
information with a second query (`pgPkQ`).  The list order models
`ORDER BY ordinal_position`. -/
structure PgCatalogColumn where
  column_name : String
  data_type : String
  is_nullable : String
  column_default : Option String
  character_maximum_length : Option Nat
  isPrimaryKey : Bool
deriving DecidableEq

/-- A row of PostgreSQL's `information_schema.tables` (attributes read by the
handlers: `table_schema`, `table_name`, `table_type`). -/
structure PgTableRow where
  table_schema : String
  table_name : String
  table_type : String
deriving DecidableEq

/-- A row of SQLite's `sqlite_master` catalog (the `type` column is renamed
`objType`). -/
structure SqliteMasterRow where
  objType : String
  name : String
deriving DecidableEq

/-- A row of SQLite's `PRAGMA table_info` result (the `type` column is renamed
`colType`). -/
structure SqliteTableInfoRow where
  cid : Nat
  name : String
  colType : String
  notnull : Nat
  dflt_value : Option String
  pk : Nat
deriving DecidableEq

/-- One entry of the `dbConnections` registry: `{ connection, dbType }`. -/
structure Entry (Conn : Type) where
  connection : Conn
  dbType : DbType
deriving DecidableEq

/-- The `dbConnections` object: ordered association list keyed by the
connection id. -/
abbrev Registry (Conn : Type) := List (String × Entry Conn)

/-- Property read `dbConnections[id]`: `none` models `undefined`. -/
def regFind {Conn : Type} : Registry Conn → String → Option (Entry Conn)
  | [], _ => none
  | (k, e) :: rest, id => if k = id then some e else regFind rest id

/-- Property write `dbConnections[id] = entry`: overwrite in place when the
key exists, append otherwise (JavaScript object insertion-order semantics). -/
def regSet {Conn : Type} : Registry Conn → String → Entry Conn → Registry Conn
  | [], id, e => [(id, e)]
  | (k, old) :: rest, id, e =>
    if k = id then (k, e) :: rest else (k, old) :: regSet rest id e

/-- Property delete `delete dbConnections[id]`. -/
def regErase {Conn : Type} : Registry Conn → String → Registry Conn
  | [], _ => []
  | (k, e) :: rest, id => if k = id then rest else (k, e) :: regErase rest id

/-- Field update `dbConnections[id].connection = c` (the `use-database`
replacement path for PostgreSQL). -/
def regSetConn {Conn : Type} : Registry Conn → String → Conn → Registry Conn
  | [], _, _ => []
  | (k, e) :: rest, id, c =>
    if k = id then (k, { e with connection := c }) :: rest
    else (k, e) :: regSetConn rest id c

/-- The value a handler returns over IPC: `{ success: true, ...payload }` or
`{ success: false, error }`. -/
inductive JsResult (α : Type) where
  | success (val : α)
  | failure (error : String)
deriving DecidableEq

/-- Whether a handler result is the `{ success: false, error }` shape. -/
def JsResult.isFailure {α : Type} : JsResult α → Bool
  | .success _ => false
  | .failure _ => true

/-- Message of the `TypeError` thrown when
`const { connection, dbType } = dbConnections[connectionId]` destructures
`undefined` (the engine's wording abbreviated; only its identity as a failure
message matters to the embedding). -/
def destructureMsg : String :=
  "Cannot destructure property connection of undefined"

/-- Native-driver oracles.  Each field models one driver call a handler
performs; `Except.error` is a rejected promise / thrown driver error whose
message the handler's `catch` reports. -/
structure NativeOps (Conn : Type) where
  /-- `mysql.createConnection({host, port, user, password})`. -/
  mysqlCreate : ConnectInfo → Except String Conn
  /-- `new Pool({host, port, user, password})` in `connect-database`. -/
  pgCreate : ConnectInfo → Except String Conn
  /-- `new sqlite3.Database(host)` — `host` is the file path. -/
  sqliteCreate : String → Except String Conn
  /-- `connection.end()` (both the `mysql2` connection and the `pg` pool). -/
  endConn : Conn → Except String Unit
  /-- `connection.close(cb)` on the `sqlite3` handle. -/
  sqliteClose : Conn → Except String Unit
  /-- `new Pool({...connection.options, database})` — the replacement pool
  built by `use-database` for PostgreSQL, parameterized by the database
  name. -/
  pgNewPool : Conn → String → Except String Conn
  /-- `connection.query(sql)` on `mysql2`, used by `execute-query` and by
  `use-database`'s `USE` statement; result rows of the raw query. -/
  mysqlQuery : Conn → String → Except String (List Row)
  /-- `connection.query(sql)` on the `pg` pool for `execute-query`. -/
  pgQuery : Conn → String → Except String (List Row)
  /-- `connection.all(sql, cb)` on `sqlite3` for `execute-query`. -/
  sqliteAll : Conn → String → Except String (List Row)
  /-- `SHOW DATABASES` mapped through `row.Database`. -/
  mysqlShowDatabases : Conn → Except String (List String)
  /-- `SELECT datname FROM pg_database WHERE datistemplate = false` mapped
  through `row.datname`. -/
  pgDatabases : Conn → Except String (List String)
  /-- `SHOW TABLES`: one single-column row per table or view of the current
  database, mapped through `Object.values(row)[0]`; modeled directly as the
  name list. -/
  mysqlShowTables : Conn → Except String (List String)
  /-- The server's `information_schema.tables` contents; the `WHERE` clauses
  of the two distinct queries the handlers issue are applied in the
  embedding. -/
  pgInfoSchemaTables : Conn → Except String (List PgTableRow)
  /-- The `sqlite_master` catalog; the `WHERE` clause of the issued query is
  applied in the embedding. -/
  sqliteMaster : Conn → Except String (List SqliteMasterRow)
  /-- ``DESCRIBE `table` `` on `mysql2`. -/
  mysqlDescribe : Conn → String → Except String (List MySqlDescribeRow)
  /-- The parameterized `information_schema.columns` query for one table
  (rows in `ordinal_position` order); the `SELECT` projection is applied in
  the embedding. -/
  pgColumnsQ : Conn → String → Except String (List PgCatalogColumn)
  /-- The `table_constraints`/`key_column_usage` join of
  `get-database-schema`, returning the PRIMARY KEY column names of one
  table. -/
  pgPkQ : Conn → String → Except String (List String)
  /-- `PRAGMA table_info(table)` on `sqlite3`. -/
  sqlitePragmaTableInfo : Conn → String → Except String (List SqliteTableInfoRow)
  /-- `SELECT DATABASE() as db` on `mysql2`; `none` models SQL `NULL` (no
  database selected). -/
  mysqlCurrentDb : Conn → Except String (Option String)
  /-- `SELECT current_database() as db` on `pg`. -/
  pgCurrentDb : Conn → Except String String

/-- The `switch (dbType)` of `connect-database`: create the native connection
for a recognized kind, or throw `Unsupported database type`. -/
def createConnection {Conn : Type} (ops : NativeOps Conn) (info : ConnectInfo) :
    Except String (Conn × DbType) :=
  if info.dbType = "mysql" then
    (ops.mysqlCreate info).map (fun c => (c, DbType.mysql))
  else if info.dbType = "postgresql" then
    (ops.pgCreate info).map (fun c => (c, DbType.postgresql))
  else if info.dbType = "sqlite" then
    (ops.sqliteCreate info.host).map (fun c => (c, DbType.sqlite))
  else
    .error ("Unsupported database type: " ++ info.dbType)

/-- Handler `connect-database`: create the native connection, generate the
connection id from the current clock (`Date.now().toString()`, passed in as
`now`), and store `{ connection, dbType }` under that id. -/
def connectDatabase {Conn : Type} (ops : NativeOps Conn) (reg : Registry Conn)
    (now : Nat) (info : ConnectInfo) : Registry Conn × JsResult String :=
  match createConnection ops info with
  | .error msg => (reg, .failure msg)
  | .ok (conn, kind) =>
    let connectionId := toString now
    (regSet reg connectionId ⟨conn, kind⟩, .success connectionId)

/-- Handler `list-databases`. -/
def listDatabases {Conn : Type} (ops : NativeOps Conn) (reg : Registry Conn)
    (connectionId : String) : JsResult (List String) :=
  match regFind reg connectionId with
  | none => .failure destructureMsg
  | some e =>
    match e.dbType with
    | .mysql =>
      match ops.mysqlShowDatabases e.connection with
      | .ok names => .success names
      | .error m => .failure m
    | .postgresql =>
      match ops.pgDatabases e.connection with
      | .ok names => .success names
      | .error m => .failure m
    | .sqlite => .success ["main"]

/-- Handler `use-database`.  MySQL rebinds the session with a `USE`
statement; PostgreSQL constructs a replacement pool bound to `database`, ends
the old pool, then installs the new one; SQLite is a no-op. -/
def useDatabase {Conn : Type} (ops : NativeOps Conn) (reg : Registry Conn)
    (connectionId database : String) : Registry Conn × JsResult Unit :=
  match regFind reg connectionId with
  | none => (reg, .failure destructureMsg)
  | some e =>
    match e.dbType with
    | .mysql =>
      match ops.mysqlQuery e.connection ("USE `" ++ database ++ "`") with
      | .ok _ => (reg, .success ())
      | .error m => (reg, .failure m)
    | .postgresql =>
      match ops.pgNewPool e.connection database with
      | .error m => (reg, .failure m)
      | .ok newConnection =>
        match ops.endConn e.connection with
        | .error m => (reg, .failure m)
        | .ok _ => (regSetConn reg connectionId newConnection, .success ())
    | .sqlite => (reg, .success ())

/-- SQL `LIKE 'sqlite_%'` applied to a name: literal `sqlite`, one arbitrary
character (`_`), any tail (`%`); SQLite's `LIKE` is case-insensitive for
ASCII, modeled by lowercasing the name first. -/
def matchesSqliteLike (n : String) : Bool :=
  ("sqlite".data.isPrefixOf (n.data.map Char.toLower)) && decide (7 ≤ n.data.length)

/-- The `WHERE type='table' AND name NOT LIKE 'sqlite_%'` filter of the
`sqlite_master` query issued by `list-tables` and `get-database-schema`. -/
def sqliteIsTableRow (r : SqliteMasterRow) : Bool :=
  r.objType == "table" && !(matchesSqliteLike r.name)

/-- Result of the `sqlite_master` query, mapped through `row.name`. -/
def sqliteTableNames (master : List SqliteMasterRow) : List String :=
  (master.filter sqliteIsTableRow).map (fun r => r.name)

/-- Result of `list-tables`' PostgreSQL query
`SELECT table_name FROM information_schema.tables WHERE table_schema = 'public'`
(note: no `table_type` condition), mapped through `row.table_name`. -/
def pgPublicTableNames (cat : List PgTableRow) : List String :=
  (cat.filter (fun r => r.table_schema == "public")).map (fun r => r.table_name)

/-- Handler `list-tables`. -/
def listTables {Conn : Type} (ops : NativeOps Conn) (reg : Registry Conn)
    (connectionId : String) : JsResult (List String) :=
  match regFind reg connectionId with
  | none => .failure destructureMsg
  | some e =>
    match e.dbType with
    | .mysql =>
      match ops.mysqlShowTables e.connection with
      | .ok names => .success names
      | .error m => .failure m
    | .postgresql =>
      match ops.pgInfoSchemaTables e.connection with
      | .ok cat => .success (pgPublicTableNames cat)
      | .error m => .failure m
    | .sqlite =>
      match ops.sqliteMaster e.connection with
      | .ok master => .success (sqliteTableNames master)
      | .error m => .failure m

/-- JavaScript `null`-aware field value: `some` becomes a string, `none`
becomes `null`. -/
def jopt : Option String → JValue
  | some s => .str s
  | none => .null

/-- The object literal `get-table-schema` builds for one MySQL column:
`{name, type, nullable, key, default, extra}`. -/
def mysqlColumnDesc (r : MySqlDescribeRow) : Desc :=
  [("name", .str r.Field), ("type", .str r.colType),
   ("nullable", .bool (r.Null == "YES")), ("key", .str r.Key),
   ("default", jopt r.Default), ("extra", .str r.Extra)]

/-- The object literal `get-table-schema` builds for one PostgreSQL column:
`{name, type, nullable, default}` — the projection of the four selected
catalog attributes; nothing else of the catalog row is read. -/
def pgColumnDesc (r : PgCatalogColumn) : Desc :=
  [("name", .str r.column_name), ("type", .str r.data_type),
   ("nullable", .bool (r.is_nullable == "YES")), ("default", jopt r.column_default)]

/-- The object literal `get-table-schema` builds for one SQLite column:
`{name, type, nullable, default, pk}`. -/
def sqliteColumnDesc (r : SqliteTableInfoRow) : Desc :=
  [("name", .str r.name), ("type", .str r.colType),
   ("nullable", .bool (r.notnull == 0)), ("default", jopt r.dflt_value),
   ("pk", .bool (r.pk == 1))]

/-- Handler `get-table-schema`. -/
def getTableSchema {Conn : Type} (ops : NativeOps Conn) (reg : Registry Conn)
    (connectionId table : String) : JsResult (List Desc) :=
  match regFind reg connectionId with
  | none => .failure destructureMsg
  | some e =>
    match e.dbType with
    | .mysql =>
      match ops.mysqlDescribe e.connection table with
      | .ok rows => .success (rows.map mysqlColumnDesc)
      | .error m => .failure m
    | .postgresql =>
      match ops.pgColumnsQ e.connection table with
      | .ok rows => .success (rows.map pgColumnDesc)
      | .error m => .failure m
    | .sqlite =>
      match ops.sqlitePragmaTableInfo e.connection table with
      | .ok rows => .success (rows.map sqliteColumnDesc)
      | .error m => .failure m

/-- Handler `execute-query`: verbatim pass-through of the SQL string to the
backend's query call. -/
def executeQuery {Conn : Type} (ops : NativeOps Conn) (reg : Registry Conn)
    (connectionId query : String) : JsResult (List Row) :=
  match regFind reg connectionId with
  | none => .failure destructureMsg
  | some e =>
    match e.dbType with
    | .mysql =>
      match ops.mysqlQuery e.connection query with
      | .ok rows => .success rows
      | .error m => .failure m
    | .postgresql =>
      match ops.pgQuery e.connection query with
      | .ok rows => .success rows
      | .error m => .failure m
    | .sqlite =>
      match ops.sqliteAll e.connection query with
      | .ok rows => .success rows
      | .error m => .failure m

/-- Handler `close-connection`'s `switch (dbType)`: `connection.end()` for
the server backends, `connection.close(cb)` for SQLite. -/
def closeNative {Conn : Type} (ops : NativeOps Conn) (e : Entry Conn) :
    Except String Unit :=
  match e.dbType with
  | .mysql => ops.endConn e.connection
  | .postgresql => ops.endConn e.connection
  | .sqlite => ops.sqliteClose e.connection

/-- Handler `close-connection`: release the native connection, then
`delete dbConnections[connectionId]`.  An unknown id hits the destructuring
`TypeError` (the `none` branch) before the `// Already closed or not found`
guard, so the handler reports a failure for it. -/
def closeConnection {Conn : Type} (ops : NativeOps Conn) (reg : Registry Conn)
    (connectionId : String) : Registry Conn × JsResult Unit :=
  match regFind reg connectionId with
  | none => (reg, .failure destructureMsg)
  | some e =>
    match closeNative ops e with
    | .error m => (reg, .failure m)
    | .ok _ => (regErase reg connectionId, .success ())

/-- JavaScript truthiness of `col.character_maximum_length`: `null` and `0`
are falsy. -/
def jsTruthyLen : Option Nat → Bool
  | some n => n != 0
  | none => false

/-- One column line of `get-database-schema`'s MySQL branch. -/
def mysqlColumnLine (c : MySqlDescribeRow) : String :=
  "  - " ++ c.Field ++ " (" ++ c.colType ++ ")" ++
  (if c.Key == "PRI" then " PRIMARY KEY" else "") ++
  (if c.Key == "UNI" then " UNIQUE" else "") ++
  (if c.Key == "MUL" then " INDEX" else "") ++
  (if c.Extra == "auto_increment" then " AUTO_INCREMENT" else "") ++
  (if c.Null == "NO" then " NOT NULL" else "") ++
  (match c.Default with
   | some v => " DEFAULT " ++ v
   | none => "") ++ "\n"

/-- The text block `get-database-schema` appends for one MySQL table. -/
def mysqlTableText (table : String) (cols : List MySqlDescribeRow) : String :=
  "Table: " ++ table ++ "\n" ++ "Columns:\n" ++
  String.join (cols.map mysqlColumnLine) ++ "\n"

/-- The displayed data type of a PostgreSQL column, with the maximum length
appended when truthy. -/
def pgDataTypeText (c : PgCatalogColumn) : String :=
  c.data_type ++
  (if jsTruthyLen c.character_maximum_length then
     "(" ++ toString (c.character_maximum_length.getD 0) ++ ")"
   else "")

/-- One column line of `get-database-schema`'s PostgreSQL branch; `pks` is
the result of the separate primary-key constraint query. -/
def pgColumnLine (pks : List String) (c : PgCatalogColumn) : String :=
  "  - " ++ c.column_name ++ " (" ++ pgDataTypeText c ++ ")" ++
  (if pks.contains c.column_name then " PRIMARY KEY" else "") ++
  (if c.is_nullable == "NO" then " NOT NULL" else "") ++
  (match c.column_default with
   | some v => " DEFAULT " ++ v
   | none => "") ++ "\n"

/-- The text block `get-database-schema` appends for one PostgreSQL table. -/
def pgTableText (table : String) (cols : List PgCatalogColumn)
    (pks : List String) : String :=
  "Table: " ++ table ++ "\n" ++ "Columns:\n" ++
  String.join (cols.map (pgColumnLine pks)) ++ "\n"

/-- One column line of `get-database-schema`'s SQLite branch. -/
def sqliteColumnLine (c : SqliteTableInfoRow) : String :=
  "  - " ++ c.name ++ " (" ++ c.colType ++ ")" ++
  (if c.pk == 1 then " PRIMARY KEY" else "") ++
  (if c.notnull == 1 then " NOT NULL" else "") ++
  (match c.dflt_value with
   | some v => " DEFAULT " ++ v
   | none => "") ++ "\n"

/-- The text block `get-database-schema` appends for one SQLite table. -/
def sqliteTableText (table : String) (cols : List SqliteTableInfoRow) : String :=
  "Table: " ++ table ++ "\n" ++ "Columns:\n" ++
  String.join (cols.map sqliteColumnLine) ++ "\n"

/-- The `for (const table of tableList)` loop of the MySQL branch: one
`DESCRIBE` round trip per table, any error aborting the whole handler. -/
def mysqlSchemaLoop {Conn : Type} (ops : NativeOps Conn) (conn : Conn) :
    List String → Except String String
  | [] => .ok ""
  | t :: ts =>
    match ops.mysqlDescribe conn t with
    | .error m => .error m
    | .ok cols =>
      match mysqlSchemaLoop ops conn ts with
      | .error m => .error m
      | .ok rest => .ok (mysqlTableText t cols ++ rest)

/-- The per-table loop of the PostgreSQL branch: a column query and a
primary-key constraint query per table, any error aborting the whole
handler. -/
def pgSchemaLoop {Conn : Type} (ops : NativeOps Conn) (conn : Conn) :
    List String → Except String String
  | [] => .ok ""
  | t :: ts =>
    match ops.pgColumnsQ conn t with
    | .error m => .error m
    | .ok cols =>
      match ops.pgPkQ conn t with
      | .error m => .error m
      | .ok pks =>
        match pgSchemaLoop ops conn ts with
        | .error m => .error m
        | .ok rest => .ok (pgTableText t cols pks ++ rest)

/-- The per-table loop of the SQLite branch: one `PRAGMA table_info` round
trip per table, any error aborting the whole handler. -/
def sqliteSchemaLoop {Conn : Type} (ops : NativeOps Conn) (conn : Conn) :
    List String → Except String String
  | [] => .ok ""
  | t :: ts =>
    match ops.sqlitePragmaTableInfo conn t with
    | .error m => .error m
    | .ok cols =>
      match sqliteSchemaLoop ops conn ts with
      | .error m => .error m
      | .ok rest => .ok (sqliteTableText t cols ++ rest)

/-- MySQL branch of `get-database-schema`: current database (throwing
`No database selected` when it is falsy), `SHOW TABLES`, then the per-table
loop. -/
def mysqlSchema {Conn : Type} (ops : NativeOps Conn) (conn : Conn) :
    Except String String :=
  match ops.mysqlCurrentDb conn with
  | .error m => .error m
  | .ok none => .error "No database selected"
  | .ok (some db) =>
    if db == "" then .error "No database selected"
    else
      match ops.mysqlShowTables conn with
      | .error m => .error m
      | .ok tableList => mysqlSchemaLoop ops conn tableList

/-- The table list of `get-database-schema`'s PostgreSQL branch:
`WHERE table_schema = 'public' AND table_type = 'BASE TABLE'` (this query,
unlike the one in `list-tables`, does restrict to base tables). -/
def pgBaseTableNames (cat : List PgTableRow) : List String :=
  (cat.filter (fun r => r.table_schema == "public" && r.table_type == "BASE TABLE")).map
    (fun r => r.table_name)

/-- PostgreSQL branch of `get-database-schema`: current database (result only
bound, not otherwise used), base-table list, then the per-table loop. -/
def pgSchema {Conn : Type} (ops : NativeOps Conn) (conn : Conn) :
    Except String String :=
  match ops.pgCurrentDb conn with
  | .error m => .error m
  | .ok _ =>
    match ops.pgInfoSchemaTables conn with
    | .error m => .error m
    | .ok cat => pgSchemaLoop ops conn (pgBaseTableNames cat)

/-- SQLite branch of `get-database-schema`: `sqlite_master` list (same filter
as `list-tables`), then the per-table loop. -/
def sqliteSchema {Conn : Type} (ops : NativeOps Conn) (conn : Conn) :
    Except String String :=
  match ops.sqliteMaster conn with
  | .error m => .error m
  | .ok master => sqliteSchemaLoop ops conn (sqliteTableNames master)

/-- Handler `get-database-schema` (the schema introspector feeding the
text-generation collaborator). -/
def getDatabaseSchema {Conn : Type} (ops : NativeOps Conn) (reg : Registry Conn)
    (connectionId : String) : JsResult String :=
  match regFind reg connectionId with
  | none => .failure destructureMsg
  | some e =>
    match
      (match e.dbType with
       | .mysql => mysqlSchema ops e.connection
       | .postgresql => pgSchema ops e.connection
       | .sqlite => sqliteSchema ops e.connection) with
    | .ok s => .success s
    | .error m => .failure m

/-- Ground-truth primary-key column names of a modeled PostgreSQL column
catalog (what the constraint tables record; equals what `pgPkQ` is meant to
return on a faithful server). -/
def pkColumns (cat : List PgCatalogColumn) : List String :=
  (cat.filter (fun r => r.isPrimaryKey)).map (fun r => r.column_name)

/-! Concrete driver instances used by closed witnesses and counterexamples.
The connection type is `Nat` (an opaque driver-object identity); every oracle
succeeds with a neutral value unless a particular scenario overrides it. -/

/-- A benign concrete driver: every call succeeds with a neutral value. -/
def opsBase : NativeOps Nat where
  mysqlCreate := fun _ => .ok 0
  pgCreate := fun _ => .ok 0
  sqliteCreate := fun _ => .ok 0
  endConn := fun _ => .ok ()
  sqliteClose := fun _ => .ok ()
  pgNewPool := fun _ _ => .ok 0
  mysqlQuery := fun _ _ => .ok []
  pgQuery := fun _ _ => .ok []
  sqliteAll := fun _ _ => .ok []
  mysqlShowDatabases := fun _ => .ok []
  pgDatabases := fun _ => .ok []
  mysqlShowTables := fun _ => .ok []
  pgInfoSchemaTables := fun _ => .ok []
  sqliteMaster := fun _ => .ok []
  mysqlDescribe := fun _ _ => .ok []
  pgColumnsQ := fun _ _ => .ok []
  pgPkQ := fun _ _ => .ok []
  sqlitePragmaTableInfo := fun _ _ => .ok []
  mysqlCurrentDb := fun _ => .ok (some "appdb")
  pgCurrentDb := fun _ => .ok "appdb"

/-- A registry holding one PostgreSQL handle under id `"1"`. -/
def regPg : Registry Nat := [("1", ⟨0, DbType.postgresql⟩)]

/-- A registry holding one MySQL handle under id `"1"`. -/
def regMy : Registry Nat := [("1", ⟨0, DbType.mysql⟩)]

/-- A registry holding one SQLite handle under id `"1"`. -/
def regSq : Registry Nat := [("1", ⟨0, DbType.sqlite⟩)]

/-- Driver whose replacement-pool construction fails (e.g. the config object
is rejected), for the `use-database` rollback scenario. -/
def opsPoolFail : NativeOps Nat :=
  { opsBase with pgNewPool := fun _ _ => .error "pool construction failed" }

/-- Driver whose `connection.end()` rejects, for the failing-close
scenario. -/
def opsEndFail : NativeOps Nat :=
  { opsBase with endConn := fun _ => .error "end failed" }

/-!  C1 — `use-database` on PostgreSQL: replacement-pool construction failure
leaves the registry entry (and hence `execute-query`) untouched. -/

/-- C1: on the session-replacement backend (PostgreSQL), `use-database`
constructs the new pool before ending the old one, so whenever constructing
the new connection for `name` fails, the handler reports that failure, the
registry (and the handle's old connection) is unchanged, and a subsequent
`execute-query` on the same id behaves exactly as before the attempted
switch. -/
theorem useDatabase_pg_newPool_failure_leaves_handle_intact
    {Conn : Type} (ops : NativeOps Conn) (reg : Registry Conn)
    (id name sql : String) (e : Entry Conn) (m : String)
    (hfind : regFind reg id = some e)
    (hkind : e.dbType = DbType.postgresql)
    (hfail : ops.pgNewPool e.connection name = Except.error m) :
    useDatabase ops reg id name = (reg, JsResult.failure m) ∧
    executeQuery ops (useDatabase ops reg id name).1 id sql =
      executeQuery ops reg id sql := by
  have h1 : useDatabase ops reg id name = (reg, JsResult.failure m) := by
    obtain ⟨c, k⟩ := e
    simp only [Entry.dbType] at hkind
    subst hkind
    simp only [Entry.connection] at hfail
    simp [useDatabase, hfind, hfail]
  exact ⟨h1, by rw [h1]⟩

/-- Closed witness for the C1 theorem at a concrete driver and registry. -/
theorem useDatabase_pg_newPool_failure_witness :
    useDatabase opsPoolFail regPg "1" "nope" =
      (regPg, JsResult.failure "pool construction failed") ∧
    executeQuery opsPoolFail (useDatabase opsPoolFail regPg "1" "nope").1 "1" "SELECT 1" =
      executeQuery opsPoolFail regPg "1" "SELECT 1" :=
  useDatabase_pg_newPool_failure_leaves_handle_intact opsPoolFail regPg "1" "nope"
    "SELECT 1" ⟨0, DbType.postgresql⟩ "pool construction failed" rfl rfl rfl

/-!  C2 — `close-connection` on an unknown id is not the silent success the
`// Already closed or not found` comment promises: the destructuring throws
first, so the handler reports a failure. -/

/-- C2 failing-input evaluation: closing the never-opened id `"42"` (with an
unrelated live handle present) returns a failure result, not success: the
destructuring of `dbConnections["42"]` (undefined) throws before the
not-found guard, and the catch reports the `TypeError`.  The registry is
left unchanged. -/
theorem closeConnection_unknown_id_returns_failure :
    closeConnection opsBase [("7", ⟨(3 : Nat), DbType.mysql⟩)] "42" =
      ([("7", ⟨3, DbType.mysql⟩)], JsResult.failure destructureMsg) := by
  decide

/-!  C4 — every non-open, non-close operation on an id with no registry entry
returns a caught failure result (never an uncaught exception: each embedded
handler is a total function whose missing-id branch is the caught
destructuring error). -/

/-- C4: each of `list-databases`, `use-database`, `list-tables`,
`get-table-schema`, `execute-query` and `get-database-schema`, applied to an
id with no live registry entry, returns the failure result carrying the
destructuring message — a reported failure, not a crash — and the
state-changing ones leave the registry unchanged. -/
theorem unknown_id_operations_fail
    {Conn : Type} (ops : NativeOps Conn) (reg : Registry Conn)
    (id name table sql : String)
    (h : regFind reg id = none) :
    listDatabases ops reg id = JsResult.failure destructureMsg ∧
    useDatabase ops reg id name = (reg, JsResult.failure destructureMsg) ∧
    listTables ops reg id = JsResult.failure destructureMsg ∧
    getTableSchema ops reg id table = JsResult.failure destructureMsg ∧
    executeQuery ops reg id sql = JsResult.failure destructureMsg ∧
    getDatabaseSchema ops reg id = JsResult.failure destructureMsg := by
  refine ⟨?_, ?_, ?_, ?_, ?_, ?_⟩ <;>
    simp [listDatabases, useDatabase, listTables, getTableSchema, executeQuery,
      getDatabaseSchema, h]

/-- Closed witness for the C4 theorem: the never-opened id `"9"` against an
empty registry and a concrete driver. -/
theorem unknown_id_operations_fail_witness :
    listDatabases opsBase ([] : Registry Nat) "9" = JsResult.failure destructureMsg ∧
    useDatabase opsBase ([] : Registry Nat) "9" "d" =
      ([], JsResult.failure destructureMsg) ∧
    listTables opsBase ([] : Registry Nat) "9" = JsResult.failure destructureMsg ∧
    getTableSchema opsBase ([] : Registry Nat) "9" "t" = JsResult.failure destructureMsg ∧
    executeQuery opsBase ([] : Registry Nat) "9" "q" = JsResult.failure destructureMsg ∧
    getDatabaseSchema opsBase ([] : Registry Nat) "9" = JsResult.failure destructureMsg :=
  unknown_id_operations_fail opsBase [] "9" "d" "t" "q" rfl

/-!  C10 — a failing native close leaves the registry entry in place. -/

/-- C10: when `close-connection` finds a live entry and the native close
(`connection.end()` or the SQLite `close`) fails, the handler returns that
failure and the `delete` is never reached: the registry is unchanged and the
id still resolves to the very same handle. -/
theorem closeConnection_native_failure_keeps_entry
    {Conn : Type} (ops : NativeOps Conn) (reg : Registry Conn)
    (id : String) (e : Entry Conn) (m : String)
    (hfind : regFind reg id = some e)
    (hfail : closeNative ops e = Except.error m) :
    closeConnection ops reg id = (reg, JsResult.failure m) ∧
    regFind (closeConnection ops reg id).1 id = some e := by
  have h1 : closeConnection ops reg id = (reg, JsResult.failure m) := by
    simp [closeConnection, hfind, hfail]
  exact ⟨h1, by rw [h1]; exact hfind⟩

/-- Closed witness for the C10 theorem: a MySQL handle whose
`connection.end()` rejects. -/
theorem closeConnection_native_failure_witness :
    closeConnection opsEndFail [("1", ⟨(2 : Nat), DbType.mysql⟩)] "1" =
      ([("1", ⟨2, DbType.mysql⟩)], JsResult.failure "end failed") ∧
    regFind (closeConnection opsEndFail [("1", ⟨(2 : Nat), DbType.mysql⟩)] "1").1 "1" =
      some ⟨2, DbType.mysql⟩ :=
  closeConnection_native_failure_keeps_entry opsEndFail
    [("1", ⟨2, DbType.mysql⟩)] "1" ⟨2, DbType.mysql⟩ "end failed" rfl rfl

/-!  C5 — connection ids are `Date.now().toString()`: two opens served within
the same millisecond receive the same id, and the second open overwrites the
first handle's registry entry. -/

/-- Driver for the collision scenario: distinguishable connection objects. -/
def opsTwoConns : NativeOps Nat :=
  { opsBase with mysqlCreate := fun _ => .ok 7, pgCreate := fun _ => .ok 8 }

/-- Connection parameters of a MySQL open. -/
def infoMysql : ConnectInfo := ⟨"mysql", "localhost", "3306", "root", "pw"⟩

/-- Connection parameters of a PostgreSQL open. -/
def infoPg : ConnectInfo := ⟨"postgresql", "localhost", "5432", "admin", "pw"⟩

/-- C5 failing-input evaluation: two successful `connect-database` calls both
served at clock value `5` (the same `Date.now()` millisecond).  Both return
connection id `"5"`, and the second call's `dbConnections["5"] = ...`
assignment overwrites the first handle's entry while that handle is still
held — the generated id is neither fresh nor unique. -/
theorem connect_same_timestamp_id_collision :
    connectDatabase opsTwoConns [] 5 infoMysql =
      ([("5", ⟨7, DbType.mysql⟩)], JsResult.success "5") ∧
    connectDatabase opsTwoConns [("5", ⟨7, DbType.mysql⟩)] 5 infoPg =
      ([("5", ⟨8, DbType.postgresql⟩)], JsResult.success "5") := by
  constructor <;> rfl

/-!  C3 — primary-key marking in `get-table-schema`.  The MySQL and SQLite
descriptors mirror the catalog's constraint metadata (`Key`/`pk`), but the
PostgreSQL branch never queries constraint metadata, so its output is
independent of which column is the primary key. -/

/-- A two-column PostgreSQL catalog whose primary key is `id`. -/
def pgCatPkId : List PgCatalogColumn :=
  [⟨"id", "integer", "NO", none, none, true⟩,
   ⟨"name", "text", "YES", none, none, false⟩]

/-- The same two columns with the primary key on `name` instead. -/
def pgCatPkName : List PgCatalogColumn :=
  [⟨"id", "integer", "NO", none, none, false⟩,
   ⟨"name", "text", "YES", none, none, true⟩]

/-- Driver whose column query reports the `pgCatPkId` catalog. -/
def opsPgPkId : NativeOps Nat :=
  { opsBase with pgColumnsQ := fun _ _ => .ok pgCatPkId }

/-- Driver whose column query reports the `pgCatPkName` catalog. -/
def opsPgPkName : NativeOps Nat :=
  { opsBase with pgColumnsQ := fun _ _ => .ok pgCatPkName }

/-- C3 counterexample: two concrete single-column-primary-key tables that
differ only in which column the PRIMARY KEY constraint covers produce
identical `get-table-schema` results on the PostgreSQL backend, and the
descriptor built for the key column carries no `isPrimaryKey` property at
all — so the operation cannot mark `isPrimaryKey=true` for exactly the
primary-key column, refuting the claim for the PostgreSQL backend kind. -/
theorem getTableSchema_pg_ignores_primary_key_cex :
    pkColumns pgCatPkId ≠ pkColumns pgCatPkName ∧
    getTableSchema opsPgPkId regPg "1" "users" =
      getTableSchema opsPgPkName regPg "1" "users" ∧
    lookupField (pgColumnDesc ⟨"id", "integer", "NO", none, none, true⟩)
      "isPrimaryKey" = none := by
  decide

/-- C3 as amended: the primary-key marking `get-table-schema` actually
provides.  A MySQL descriptor's `key` property mirrors the catalog's `Key`
constraint metadata (`"PRI"` exactly on primary-key columns), a SQLite
descriptor's `pk` property mirrors the `PRAGMA table_info` primary-key flag,
and the PostgreSQL descriptor is independent of primary-key constraint
metadata (it has no property reflecting it). -/
theorem describeTable_primary_key_marking :
    (∀ r : MySqlDescribeRow,
      lookupField (mysqlColumnDesc r) "key" = some (JValue.str r.Key)) ∧
    (∀ r : SqliteTableInfoRow,
      lookupField (sqliteColumnDesc r) "pk" = some (JValue.bool (r.pk == 1))) ∧
    (∀ (r : PgCatalogColumn) (b : Bool),
      pgColumnDesc r = pgColumnDesc { r with isPrimaryKey := b }) := by
  refine ⟨fun r => rfl, fun r => rfl, fun r b => ?_⟩
  cases r
  rfl

/-!  C7 — the normalized eight-field ColumnDescriptor shape does not exist in
the code: each backend returns its own object shape and the missing fields
are omitted, not defaulted. -/

/-- C7 counterexample: on the PostgreSQL backend, `get-table-schema` for a
concrete table returns descriptors whose properties are exactly
`name, type, nullable, default`; `isPrimaryKey`, `isUnique`, `hasIndex` and
`extra` are absent rather than present with safe defaults. -/
theorem getTableSchema_pg_descriptor_missing_fields_cex :
    getTableSchema opsPgPkId regPg "1" "users" =
      JsResult.success
        [[("name", JValue.str "id"), ("type", JValue.str "integer"),
          ("nullable", JValue.bool false), ("default", JValue.null)],
         [("name", JValue.str "name"), ("type", JValue.str "text"),
          ("nullable", JValue.bool true), ("default", JValue.null)]] ∧
    lookupField (pgColumnDesc ⟨"id", "integer", "NO", none, none, true⟩)
      "isPrimaryKey" = none ∧
    lookupField (pgColumnDesc ⟨"id", "integer", "NO", none, none, true⟩)
      "isUnique" = none ∧
    lookupField (pgColumnDesc ⟨"id", "integer", "NO", none, none, true⟩)
      "hasIndex" = none ∧
    lookupField (pgColumnDesc ⟨"id", "integer", "NO", none, none, true⟩)
      "extra" = none := by
  decide

/-- C7 as amended: every descriptor `get-table-schema` builds has exactly the
backend-specific property set — `name, type, nullable, key, default, extra`
for MySQL, `name, type, nullable, default` for PostgreSQL and
`name, type, nullable, default, pk` for SQLite — for every catalog row; the
normalized fields a backend does not populate are omitted from the object,
not defaulted. -/
theorem columnDescriptor_keys_by_backend :
    (∀ r : MySqlDescribeRow,
      (mysqlColumnDesc r).map Prod.fst =
        ["name", "type", "nullable", "key", "default", "extra"]) ∧
    (∀ r : PgCatalogColumn,
      (pgColumnDesc r).map Prod.fst = ["name", "type", "nullable", "default"]) ∧
    (∀ r : SqliteTableInfoRow,
      (sqliteColumnDesc r).map Prod.fst =
        ["name", "type", "nullable", "default", "pk"]) :=
  ⟨fun _ => rfl, fun _ => rfl, fun _ => rfl⟩

/-!  C6 — `list-tables` filtering.  The SQLite query's own `WHERE` clause
keeps base tables only and drops the internal namespace, but the PostgreSQL
query has no `table_type` condition, so views of the `public` schema come
back. -/

/-- An `information_schema.tables` catalog holding a base table, a view in
`public`, and a system-schema row. -/
def pgTabCat : List PgTableRow :=
  [⟨"public", "users", "BASE TABLE"⟩,
   ⟨"public", "v1", "VIEW"⟩,
   ⟨"pg_catalog", "pg_class", "SYSTEM TABLE"⟩]

/-- Driver whose `information_schema.tables` contents are `pgTabCat`. -/
def opsPgTabCat : NativeOps Nat :=
  { opsBase with pgInfoSchemaTables := fun _ => .ok pgTabCat }

/-- C6 counterexample: against a PostgreSQL catalog whose `public` schema
holds the base table `users` and the view `v1`, `list-tables` returns both —
the view appears in the result, refuting the claim that non-base-table
catalog objects never appear. -/
theorem listTables_pg_includes_view_cex :
    listTables opsPgTabCat regPg "1" = JsResult.success ["users", "v1"] := by
  decide

/-- Every name with the literal `sqlite_` prefix matches the SQL pattern
`LIKE 'sqlite_%'` of the `sqlite_master` query (the pattern's `_` wildcard
covers the literal underscore). -/
theorem sqlitePrefix_matchesLike (n : String) :
    "sqlite_".data.isPrefixOf n.data = true → matchesSqliteLike n = true := by
  intro h
  rw [List.isPrefixOf_iff_prefix] at h
  unfold matchesSqliteLike
  have hmap : ("sqlite_".data.map Char.toLower) <+: (n.data.map Char.toLower) :=
    List.IsPrefix.map Char.toLower h
  have heq : "sqlite_".data.map Char.toLower = "sqlite_".data := by decide
  rw [heq] at hmap
  have hpre6 : "sqlite".data <+: "sqlite_".data := ⟨['_'], rfl⟩
  have h6 : "sqlite".data <+: (n.data.map Char.toLower) := hpre6.trans hmap
  have hlen : 7 ≤ n.data.length := by
    have hle := h.sublist.length_le
    simpa using hle
  rw [Bool.and_eq_true]
  exact ⟨(List.isPrefixOf_iff_prefix).mpr h6, decide_eq_true hlen⟩

/-- C6 as amended: what the `list-tables` filters actually guarantee.  Every
name the SQLite branch returns comes from a `sqlite_master` row of type
`table` that does not match `LIKE 'sqlite_%'` — in particular no name with
the internal `sqlite_` prefix is ever returned; every name the PostgreSQL
branch returns comes from an `information_schema.tables` row of the `public`
schema (system schemas are excluded), with no restriction on its
`table_type` (so views of `public` are included, as the counterexample
shows). -/
theorem listTables_filter_characterization :
    (∀ (master : List SqliteMasterRow) (n : String),
        n ∈ sqliteTableNames master →
        ∃ r, r ∈ master ∧ r.objType = "table" ∧ r.name = n ∧
          matchesSqliteLike n = false ∧
          "sqlite_".data.isPrefixOf n.data = false) ∧
    (∀ (cat : List PgTableRow) (n : String),
        n ∈ pgPublicTableNames cat →
        ∃ r, r ∈ cat ∧ r.table_schema = "public" ∧ r.table_name = n) := by
  constructor
  · intro master n hn
    unfold sqliteTableNames at hn
    rw [List.mem_map] at hn
    obtain ⟨r, hr, rfl⟩ := hn
    rw [List.mem_filter] at hr
    obtain ⟨hmem, hp⟩ := hr
    unfold sqliteIsTableRow at hp
    rw [Bool.and_eq_true] at hp
    obtain ⟨h1, h2⟩ := hp
    have hnot : matchesSqliteLike r.name = false := by
      rwa [Bool.not_eq_true'] at h2
    refine ⟨r, hmem, eq_of_beq h1, rfl, hnot, ?_⟩
    by_contra hcon
    rw [Bool.not_eq_false] at hcon
    have hlike := sqlitePrefix_matchesLike r.name hcon
    rw [hnot] at hlike
    cases hlike
  · intro cat n hn
    unfold pgPublicTableNames at hn
    rw [List.mem_map] at hn
    obtain ⟨r, hr, rfl⟩ := hn
    rw [List.mem_filter] at hr
    exact ⟨r, hr.1, eq_of_beq hr.2, rfl⟩

/-- Closed witness for the C6 amended theorem at one-row catalogs. -/
theorem listTables_filter_characterization_witness :
    (∃ r, r ∈ [SqliteMasterRow.mk "table" "users"] ∧ r.objType = "table" ∧
      r.name = "users" ∧ matchesSqliteLike "users" = false ∧
      "sqlite_".data.isPrefixOf "users".data = false) ∧
    (∃ r, r ∈ [PgTableRow.mk "public" "users" "BASE TABLE"] ∧
      r.table_schema = "public" ∧ r.table_name = "users") :=
  ⟨listTables_filter_characterization.1 [⟨"table", "users"⟩] "users" (by decide),
   listTables_filter_characterization.2 [⟨"public", "users", "BASE TABLE"⟩] "users"
     (by decide)⟩

/-!  C8 — `get-database-schema` fails as a whole when any per-table describe
fails: the per-table loops run inside the handler's single `try`, so the
first error aborts everything and no partial schema text escapes. -/

/-- A failing `DESCRIBE` for any listed table makes the MySQL per-table loop
error out. -/
theorem mysqlSchemaLoop_error {Conn : Type} (ops : NativeOps Conn) (conn : Conn)
    (ts : List String) (t m : String)
    (ht : t ∈ ts) (hf : ops.mysqlDescribe conn t = Except.error m) :
    ∃ msg, mysqlSchemaLoop ops conn ts = Except.error msg := by
  induction ts with
  | nil => cases ht
  | cons hd tl ih =>
    rcases List.mem_cons.mp ht with rfl | hmem
    · exact ⟨m, by simp [mysqlSchemaLoop, hf]⟩
    · cases hdesc : ops.mysqlDescribe conn hd with
      | error msg => exact ⟨msg, by simp [mysqlSchemaLoop, hdesc]⟩
      | ok cols =>
        obtain ⟨msg, hmsg⟩ := ih hmem
        exact ⟨msg, by simp [mysqlSchemaLoop, hdesc, hmsg]⟩

/-- A failing column query for any listed table makes the PostgreSQL
per-table loop error out. -/
theorem pgSchemaLoop_error {Conn : Type} (ops : NativeOps Conn) (conn : Conn)
    (ts : List String) (t m : String)
    (ht : t ∈ ts) (hf : ops.pgColumnsQ conn t = Except.error m) :
    ∃ msg, pgSchemaLoop ops conn ts = Except.error msg := by
  induction ts with
  | nil => cases ht
  | cons hd tl ih =>
    rcases List.mem_cons.mp ht with rfl | hmem
    · exact ⟨m, by simp [pgSchemaLoop, hf]⟩
    · cases hcols : ops.pgColumnsQ conn hd with
      | error msg => exact ⟨msg, by simp [pgSchemaLoop, hcols]⟩
      | ok cols =>
        cases hpk : ops.pgPkQ conn hd with
        | error msg => exact ⟨msg, by simp [pgSchemaLoop, hcols, hpk]⟩
        | ok pks =>
          obtain ⟨msg, hmsg⟩ := ih hmem
          exact ⟨msg, by simp [pgSchemaLoop, hcols, hpk, hmsg]⟩

/-- A failing `PRAGMA table_info` for any listed table makes the SQLite
per-table loop error out. -/
theorem sqliteSchemaLoop_error {Conn : Type} (ops : NativeOps Conn) (conn : Conn)
    (ts : List String) (t m : String)
    (ht : t ∈ ts) (hf : ops.sqlitePragmaTableInfo conn t = Except.error m) :
    ∃ msg, sqliteSchemaLoop ops conn ts = Except.error msg := by
  induction ts with
  | nil => cases ht
  | cons hd tl ih =>
    rcases List.mem_cons.mp ht with rfl | hmem
    · exact ⟨m, by simp [sqliteSchemaLoop, hf]⟩
    · cases hinfo : ops.sqlitePragmaTableInfo conn hd with
      | error msg => exact ⟨msg, by simp [sqliteSchemaLoop, hinfo]⟩
      | ok cols =>
        obtain ⟨msg, hmsg⟩ := ih hmem
        exact ⟨msg, by simp [sqliteSchemaLoop, hinfo, hmsg]⟩

/-- C8: on every backend kind, when the table listing of
`get-database-schema` succeeds but the per-table describe query fails for
some listed table `t`, the whole handler returns a failure result — no
schema text omitting `t` is ever returned. -/
theorem getDatabaseSchema_fails_on_table_failure {Conn : Type}
    (ops : NativeOps Conn) :
    (∀ (reg : Registry Conn) (id : String) (e : Entry Conn) (db : String)
        (tables : List String) (t m : String),
        regFind reg id = some e → e.dbType = DbType.mysql →
        ops.mysqlCurrentDb e.connection = Except.ok (some db) → db ≠ "" →
        ops.mysqlShowTables e.connection = Except.ok tables → t ∈ tables →
        ops.mysqlDescribe e.connection t = Except.error m →
        (getDatabaseSchema ops reg id).isFailure = true) ∧
    (∀ (reg : Registry Conn) (id : String) (e : Entry Conn) (db : String)
        (cat : List PgTableRow) (t m : String),
        regFind reg id = some e → e.dbType = DbType.postgresql →
        ops.pgCurrentDb e.connection = Except.ok db →
        ops.pgInfoSchemaTables e.connection = Except.ok cat →
        t ∈ pgBaseTableNames cat →
        ops.pgColumnsQ e.connection t = Except.error m →
        (getDatabaseSchema ops reg id).isFailure = true) ∧
    (∀ (reg : Registry Conn) (id : String) (e : Entry Conn)
        (master : List SqliteMasterRow) (t m : String),
        regFind reg id = some e → e.dbType = DbType.sqlite →
        ops.sqliteMaster e.connection = Except.ok master →
        t ∈ sqliteTableNames master →
        ops.sqlitePragmaTableInfo e.connection t = Except.error m →
        (getDatabaseSchema ops reg id).isFailure = true) := by
  refine ⟨?_, ?_, ?_⟩
  · intro reg id e db tables t m hfind hkind hdb hne hshow ht hdesc
    obtain ⟨c, k⟩ := e
    simp only [Entry.dbType] at hkind
    subst hkind
    simp only [Entry.connection] at hdb hshow hdesc
    obtain ⟨msg, hmsg⟩ := mysqlSchemaLoop_error ops c tables t m ht hdesc
    have hbeq : (db == "") = false := by
      rw [beq_eq_false_iff_ne]
      exact hne
    simp [getDatabaseSchema, mysqlSchema, hfind, hdb, hbeq, hshow, hmsg,
      JsResult.isFailure]
  · intro reg id e db cat t m hfind hkind hdb hcat ht hcols
    obtain ⟨c, k⟩ := e
    simp only [Entry.dbType] at hkind
    subst hkind
    simp only [Entry.connection] at hdb hcat hcols
    obtain ⟨msg, hmsg⟩ := pgSchemaLoop_error ops c (pgBaseTableNames cat) t m ht hcols
    simp [getDatabaseSchema, pgSchema, hfind, hdb, hcat, hmsg, JsResult.isFailure]
  · intro reg id e master t m hfind hkind hmaster ht hinfo
    obtain ⟨c, k⟩ := e
    simp only [Entry.dbType] at hkind
    subst hkind
    simp only [Entry.connection] at hmaster hinfo
    obtain ⟨msg, hmsg⟩ := sqliteSchemaLoop_error ops c (sqliteTableNames master) t m
      ht hinfo
    simp [getDatabaseSchema, sqliteSchema, hfind, hmaster, hmsg, JsResult.isFailure]

/-- Driver for the C8 witness on MySQL: one listed table whose `DESCRIBE`
fails. -/
def opsDescFailMy : NativeOps Nat :=
  { opsBase with
    mysqlShowTables := fun _ => .ok ["t1"],
    mysqlDescribe := fun _ _ => .error "describe failed" }

/-- Driver for the C8 witness on PostgreSQL: one listed base table whose
column query fails. -/
def opsDescFailPg : NativeOps Nat :=
  { opsBase with
    pgInfoSchemaTables := fun _ => .ok [⟨"public", "t1", "BASE TABLE"⟩],
    pgColumnsQ := fun _ _ => .error "describe failed" }

/-- Driver for the C8 witness on SQLite: one listed table whose
`PRAGMA table_info` fails. -/
def opsDescFailSq : NativeOps Nat :=
  { opsBase with
    sqliteMaster := fun _ => .ok [⟨"table", "t1"⟩],
    sqlitePragmaTableInfo := fun _ _ => .error "describe failed" }

/-- Closed witness for the C8 theorem on all three backend kinds. -/
theorem getDatabaseSchema_fails_on_table_failure_witness :
    (getDatabaseSchema opsDescFailMy regMy "1").isFailure = true ∧
    (getDatabaseSchema opsDescFailPg regPg "1").isFailure = true ∧
    (getDatabaseSchema opsDescFailSq regSq "1").isFailure = true :=
  ⟨(getDatabaseSchema_fails_on_table_failure opsDescFailMy).1 regMy "1"
      ⟨0, DbType.mysql⟩ "appdb" ["t1"] "t1" "describe failed"
      rfl rfl rfl (by decide) rfl (by decide) rfl,
   (getDatabaseSchema_fails_on_table_failure opsDescFailPg).2.1 regPg "1"
      ⟨0, DbType.postgresql⟩ "appdb" [⟨"public", "t1", "BASE TABLE"⟩] "t1"
      "describe failed" rfl rfl rfl rfl (by decide) rfl,
   (getDatabaseSchema_fails_on_table_failure opsDescFailSq).2.2 regSq "1"
      ⟨0, DbType.sqlite⟩ [⟨"table", "t1"⟩] "t1" "describe failed"
      rfl rfl rfl (by decide) rfl⟩

end DbManager
